import Mathlib

/-!
Shallow embedding of the result-merging engine (`rproc/InfileMerger.cc`) and
the table metadata resolver (`qana/TableInfoPool.cc`) of the qserv
repository, together with proofs about the spec-level claims.

The merger side models `InfileMerger` as a state-passing machine: the session
state carries the recorded error, the create-table / header flags, the owned
protobuf messages, and the ordered stream of SQL statements issued to the SQL
engine.  External facilities that the source calls but whose code is not part
of the repository fragment (protobuf decoding via `ProtoImporter`, the MD5
hash `util::StringHash::getMd5`, the MySQL connections) are modelled as fields
of an environment record `WireEnv`, so that every theorem is stated for an
arbitrary environment and can be evaluated at concrete ones.
-/

/-- Byte buffers handed to `InfileMerger::merge` are modelled as lists of
byte values. -/
abbrev Bytes := List Nat

/-- Model of `proto::ProtoHeader`: the fields read by `_fetchHeader`
(`size()`, the declared size of the `Result` message, and `md5()`). -/
structure ProtoHeaderMsg where
  size : Int
  md5 : String
deriving DecidableEq, Repr

/-- Model of `proto::ColumnSchema`: the fields read by `_setupTable`
(`name`, `hasdefault`, `defaultvalue`, optional `mysqltype`, `sqltype`). -/
structure ColumnSchemaMsg where
  name : String
  hasdefault : Bool
  defaultvalue : String
  mysqltype : Option String
  sqltype : String
deriving DecidableEq, Repr

/-- Model of `proto::Result`: the fields read by `InfileMerger`
(`session()` and `rowschema()`). -/
structure ResultMsg where
  session : Int
  rowschema : List ColumnSchemaMsg
deriving DecidableEq, Repr

/-- Model of `InfileMerger::Msgs` (a decoded `ProtoHeader` plus a decoded
`Result`). -/
structure Msgs where
  protoHeader : ProtoHeaderMsg
  result : ResultMsg
deriving DecidableEq, Repr

/-- Model of `sql::ColSchema` as filled in by `_setupTable`: `name`,
`hasDefault`/`defaultValue`, and the column type's `mysqlType` (empty string
when the proto has no `mysqltype`) and `sqlType`. -/
structure ColSchema where
  name : String
  hasDefault : Bool
  defaultValue : String
  mysqlType : String
  sqlType : String
deriving DecidableEq, Repr

/-- The per-column conversion loop body of `InfileMerger::_setupTable`:
copies `name`, the default (only when `hasdefault()`), the optional
`mysqltype` and the `sqltype` from a `proto::ColumnSchema` into a
`sql::ColSchema`. -/
def toColSchema (cs : ColumnSchemaMsg) : ColSchema :=
  { name := cs.name
    hasDefault := cs.hasdefault
    defaultValue := if cs.hasdefault then cs.defaultvalue else ""
    mysqlType := cs.mysqltype.getD ""
    sqlType := cs.sqltype }

/-- A SQL statement issued by the merger against the SQL engine.
`sql::formCreateTable` and `sql::formLoadInfile` (in `sql/statement.cc`,
not part of this repository fragment) are modelled abstractly as
constructors carrying their arguments: `createTable` is the
`CREATE TABLE IF NOT EXISTS` DDL for the merge table derived from the row
schema, `loadInfile` is the `LOAD DATA INFILE` statement referencing the
virtual file registered for a load action (identified by its registration
index, since `LocalInfile::Mgr::prepareSrc` hands out fresh names). -/
inductive Stmt
  | createTable (table : String) (schema : List ColSchema)
  | loadInfile (table : String) (virtFile : Nat)
deriving DecidableEq, Repr

/-- Environment of the merger: the outcomes of the external facilities the
source calls.  `importHeader`/`importResult` model
`ProtoImporter<T>::setMsgFrom` applied to the given byte range, `md5` models
`util::StringHash::getMd5`, `connectOk`/`runQueryOk`/`runErrNo` model the
`sql::SqlConnection` used by `_applySqlLocal`, and
`mgrConnected`/`mgrQueryOk` model the `mysql::MySqlConnection` owned by
`InfileMerger::Mgr`. -/
structure WireEnv where
  importHeader : Bytes → Option ProtoHeaderMsg
  importResult : Bytes → Option ResultMsg
  md5 : Bytes → String
  connectOk : Bool
  connectErrNo : Nat
  runQueryOk : Stmt → Bool
  runErrNo : Stmt → Nat
  mgrConnected : Bool
  mgrQueryOk : Stmt → Bool

/-- Error state of the merger, mirroring `InfileMergerError` (`status`,
`errorCode`, `description`).  The source tests `if (_error.errorCode)`, so
only zero/nonzero of `errorCode` is significant for control flow. -/
structure ErrorInfo where
  status : Nat
  errorCode : Nat
  description : String
deriving DecidableEq, Repr

/-- Numeric value of `InfileMergerError::NONE` (the code the constructor
stores; the source tests `errorCode` against zero). -/
def errNONE : Nat := 0

/-- Numeric stand-in for `InfileMergerError::HEADER_IMPORT`.  The enum values
live in `InfileMerger.h`, which is not part of this fragment; only their
distinctness and nonzero-ness matter to the control flow in the source. -/
def errHEADER_IMPORT : Nat := 1

/-- Numeric stand-in for `InfileMergerError::HEADER_OVERFLOW`. -/
def errHEADER_OVERFLOW : Nat := 2

/-- Numeric stand-in for `InfileMergerError::RESULT_IMPORT`. -/
def errRESULT_IMPORT : Nat := 3

/-- Numeric stand-in for `InfileMergerError::RESULT_MD5`. -/
def errRESULT_MD5 : Nat := 4

/-- Numeric stand-in for `InfileMergerError::CREATE_TABLE`. -/
def errCREATE_TABLE : Nat := 5

/-- Numeric stand-in for `InfileMergerError::MYSQLCONNECT`. -/
def errMYSQLCONNECT : Nat := 6

/-- Numeric stand-in for `InfileMergerError::MYSQLEXEC`. -/
def errMYSQLEXEC : Nat := 7

/-- The fields of `InfileMergerConfig` that the `.cc` file reads:
`targetTable`, `targetDb`, and `mFixup.needsFixup` (flattened to
`needsFixup`).  `user`/`socket` only feed the MySQL configuration and are
irrelevant to the modelled behaviour. -/
structure MergerConfig where
  targetTable : String
  targetDb : String
  needsFixup : Bool
deriving DecidableEq, Repr

/-- State of one `InfileMerger` (one Query Session): the mutable members of
the class that the modelled code paths touch, plus `stmts`, the ordered
stream of SQL statements issued to the SQL engine (over both connections). -/
structure MergerState where
  config : MergerConfig
  mergeTable : String
  error : ErrorInfo
  isFinished : Bool
  needCreateTable : Bool
  needHeader : Bool
  msgs : Option Msgs
  sqlConnected : Bool
  numInflight : Int
  infileCount : Nat
  stmts : List Stmt
deriving DecidableEq, Repr

/-- Model of the file-scope helper `getTimeStampId()`: streams
`now.tv_sec % 10000` followed by `now.tv_usec` into a string.  The wall
clock is passed in as the two integers. -/
def getTimeStampId (sec usec : Nat) : String :=
  toString (sec % 10000) ++ toString usec

/-- Model of `InfileMerger::_fixupTargetName()`: when `targetTable` is empty
a name of the form `targetDb.result_<timestamp>` is generated (the source
asserts `targetDb` nonempty there); the merge table is the (possibly
regenerated) target name with `_m` appended when `mFixup.needsFixup`, and the
target name itself otherwise.  Returns the updated config and `_mergeTable`. -/
def fixupTargetName (c : MergerConfig) (ts : String) : MergerConfig × String :=
  let c' := if c.targetTable = ""
    then { c with targetTable := c.targetDb ++ ".result_" ++ ts }
    else c
  let mergeTable := if c'.needsFixup then c'.targetTable ++ "_m" else c'.targetTable
  (c', mergeTable)

/-- Model of the `InfileMerger` constructor: `_error.errorCode = NONE`,
`_isFinished(false)`, `_needCreateTable(true)`, a fresh default `Msgs`, and
`_fixupTargetName()`.  `_needHeader` is a member declared in the missing
header; it starts `true` (the first frame of a session carries the header,
per the spec).  The timestamp used by `_fixupTargetName` is passed in. -/
def initMerger (c : MergerConfig) (ts : String) : MergerState :=
  let p := fixupTargetName c ts
  { config := p.1
    mergeTable := p.2
    error := { status := 0, errorCode := errNONE, description := "" }
    isFinished := false
    needCreateTable := true
    needHeader := true
    msgs := some { protoHeader := { size := 0, md5 := "" }
                   result := { session := 0, rowschema := [] } }
    sqlConnected := false
    numInflight := 0
    infileCount := 0
    stmts := [] }

/-- The `runQuery` half of `InfileMerger::_applySqlLocal`: the statement is
issued (appended to the stream); on engine failure `status := MYSQLEXEC` and
`errorCode := errNo` are recorded and `false` is returned. -/
def runLocal (env : WireEnv) (st : MergerState) (stmt : Stmt) : Bool × MergerState :=
  let st1 := { st with stmts := st.stmts ++ [stmt] }
  if env.runQueryOk stmt then (true, st1)
  else (false, { st1 with
    error := { status := errMYSQLEXEC
               errorCode := env.runErrNo stmt
               description := "Error applying sql." } })

/-- Model of `InfileMerger::_applySqlLocal`: lazily connects `_sqlConn` (on
connection failure records `MYSQLCONNECT` with the engine errno and issues
nothing), then runs the statement. -/
def applySqlLocal (env : WireEnv) (st : MergerState) (stmt : Stmt) : Bool × MergerState :=
  if st.sqlConnected then runLocal env st stmt
  else if env.connectOk then runLocal env { st with sqlConnected := true } stmt
  else (false, { st with
    error := { status := errMYSQLCONNECT
               errorCode := env.connectErrNo
               description := "Error connecting to db." } })

/-- Model of `InfileMerger::Mgr::applyMysql`: under the manager's mutex, if
the manager's connection is down return `false` without issuing anything,
otherwise issue the statement on the manager's connection. -/
def mgrApplyMysql (env : WireEnv) (st : MergerState) (stmt : Stmt) : Bool × MergerState :=
  if env.mgrConnected then
    (env.mgrQueryOk stmt, { st with stmts := st.stmts ++ [stmt] })
  else (false, st)

/-- Model of `InfileMerger::_setupTable` (under `_createTableMutex`): when
`_needCreateTable`, build the `sql::Schema` from the decoded row schema, form
and issue the `CREATE TABLE IF NOT EXISTS` statement; on failure record
`CREATE_TABLE` and set `_isFinished`; on success clear `_needCreateTable`.
When the flag is already cleared, do nothing.  (The `msgs = none` branch
corresponds to a null `_msgs` pointer, which the public entry points never
reach.) -/
def setupTable (env : WireEnv) (st : MergerState) : MergerState :=
  if st.needCreateTable then
    match st.msgs with
    | none => st
    | some ms =>
      let schema := ms.result.rowschema.map toColSchema
      let r := applySqlLocal env st (Stmt.createTable st.mergeTable schema)
      if r.1 then { r.2 with needCreateTable := false }
      else { r.2 with
        error := { r.2.error with
                     errorCode := errCREATE_TABLE
                     description := "Error creating table (" ++ st.mergeTable ++ ")" }
        isFinished := true }
  else st

/-- Outcome of a call into the merger: a returned value together with the
state after the call, or a thrown `InfileMergerError` (the `RESULT_IMPORT`
path throws `_error`) together with the state at the throw. -/
inductive CallOut
  | ret (n : Int) (st : MergerState)
  | thrown (st : MergerState)
deriving DecidableEq, Repr

/-- Returned value of a call, `none` when the call threw. -/
def CallOut.value : CallOut → Option Int
  | .ret n _ => some n
  | .thrown _ => none

/-- Session state after a call (also for a throwing call, since the C++
object survives the exception). -/
def CallOut.state : CallOut → MergerState
  | .ret _ st => st
  | .thrown st => st

/-- Model of `InfileMerger::_fetchHeader(buffer, length)`.  Reads the one
unsigned byte `phSize`, decodes the proto header from the next `phSize`
bytes (`HEADER_IMPORT` on failure, returning 0), checks that the remaining
bytes cover the declared `size()` (`HEADER_OVERFLOW` otherwise, returning 0),
decodes the `Result` message (`RESULT_IMPORT` is thrown), calls
`_setupTable()` and returns -1 if that recorded an error, compares the MD5 of
the payload bytes against the declared digest (`RESULT_MD5` on mismatch,
returning 0), and finally clears `_needHeader`, transfers `_msgs` into a
`Mgr::Action` (registering a fresh virtual infile and bumping the in-flight
counter) whose execution issues the `LOAD DATA INFILE` statement, and
returns 0. -/
def fetchHeader (env : WireEnv) (st : MergerState) (buffer : Bytes) : CallOut :=
  let phSize : Nat := buffer.headD 0
  let cursor : Bytes := buffer.drop 1
  let remain : Int := (buffer.length : Int) - 1
  match env.importHeader (cursor.take phSize) with
  | none =>
    .ret 0 { st with
      error := { st.error with
                   errorCode := errHEADER_IMPORT
                   description := "Error decoding proto header" } }
  | some ph =>
    let cursor2 : Bytes := cursor.drop phSize
    let remain2 : Int := remain - (phSize : Int)
    if remain2 < ph.size then
      .ret 0 { st with
        error := { st.error with
                     errorCode := errHEADER_OVERFLOW
                     description := "Buffer too small for result msg, increase buffer size in InfileMerger" } }
    else
      let resultSize : Nat := ph.size.toNat
      match env.importResult (cursor2.take resultSize) with
      | none =>
        .thrown { st with
          error := { st.error with
                       errorCode := errRESULT_IMPORT
                       description := "Error decoding result msg" } }
      | some res =>
        let st1 := { st with msgs := some { protoHeader := ph, result := res } }
        let st2 := setupTable env st1
        if st2.error.errorCode ≠ 0 then .ret (-1) st2
        else
          let computedMd5 := env.md5 (cursor2.take resultSize)
          if ph.md5 ≠ computedMd5 then
            .ret 0 { st2 with
              error := { st2.error with
                           errorCode := errRESULT_MD5
                           description := "Result message MD5 mismatch" } }
          else
            let st3 := { st2 with
                         needHeader := false
                         msgs := none
                         infileCount := st2.infileCount + 1
                         numInflight := st2.numInflight + 1 }
            let st4 := (mgrApplyMysql env st3
              (Stmt.loadInfile st3.mergeTable st2.infileCount)).2
            .ret 0 st4

/-- Model of `InfileMerger::merge(dumpBuffer, dumpLength, tableName)`.  When
an error is already recorded, return -1 immediately.  Otherwise, when the
header is still needed, run `_fetchHeader`; a 0 return is passed through
(the source comments it as "buffer not big enough"), any other return leads
to `_waitPacket` (a stub returning 0) and the call returns `dumpLength`.
When the header was already consumed, `_waitPacket` runs on the whole buffer
and the call returns `dumpLength`. -/
def merge (env : WireEnv) (st : MergerState) (buffer : Bytes) : CallOut :=
  if st.error.errorCode ≠ 0 then .ret (-1) st
  else if st.needHeader then
    match fetchHeader env st buffer with
    | .thrown st' => .thrown st'
    | .ret h st' => if h = 0 then .ret 0 st' else .ret (buffer.length : Int) st'
  else .ret (buffer.length : Int) st

/-- Model of `InfileMerger::finalize()`: the body is `#if 0`-guarded in the
source, so the compiled function returns `false` unconditionally, touches no
state and issues no SQL. -/
def finalize (st : MergerState) : Bool × MergerState :=
  (false, st)

/-- Iterate `merge` over a sequence of buffers delivered to one session (the
thrown-exception outcome leaves the session object alive, so later calls on
it are still modelled). -/
def runMerges (env : WireEnv) (st : MergerState) : List Bytes → MergerState
  | [] => st
  | b :: bs => runMerges env (merge env st b).state bs

/-- Whether a statement is a `CREATE TABLE` DDL. -/
def isCreate : Stmt → Bool
  | .createTable _ _ => true
  | .loadInfile _ _ => false

/-- Number of `CREATE TABLE` statements in a statement stream. -/
def countCreates (l : List Stmt) : Nat :=
  (l.filter isCreate).length

/-!
Embedding of the table metadata resolver (`qana/TableInfoPool.cc`).  The
`TableInfo` class hierarchy and the `TableInfoLt` comparator live in
`qana/TableInfo.h`, which is not part of this repository fragment; the
variants are reconstructed from the fields the `.cc` file assigns, and the
ordering is modelled from the spec (pool ordered by `(db, name)`).
-/

/-- Pool search key: the `(db, name)` pair of a descriptor. -/
abbrev TKey := String × String

/-- Modelled from the spec: the strict ordering used by `TableInfoLt`
(`qana/TableInfo.h` is not in the fragment); the spec orders the pool by
`(db, name)`, so this is the lexicographic order on the key pair (string
order taken on the character lists, which coincides with the string order
and computes). -/
def keyLt (a b : TKey) : Prop :=
  a.1.toList < b.1.toList ∨ (a.1 = b.1 ∧ a.2.toList < b.2.toList)

instance (a b : TKey) : Decidable (keyLt a b) := by
  unfold keyLt; infer_instance

/-- Model of `qana::DirTableInfo`: a director table descriptor with its
primary-key, longitude and latitude columns and the partitioning id. -/
structure DirTableInfo where
  db : String
  name : String
  pk : String
  lon : String
  lat : String
  partitioningId : Int
deriving DecidableEq, Repr

/-- Model of `qana::ChildTableInfo`: a child table descriptor referencing
its director and carrying the foreign-key column name. -/
structure ChildTableInfo where
  db : String
  name : String
  director : DirTableInfo
  fk : String
deriving DecidableEq, Repr

/-- Model of `qana::MatchTableInfo`: a match table descriptor referencing
two directors and carrying the two foreign-key column names. -/
structure MatchTableInfo where
  db : String
  name : String
  dir1 : DirTableInfo
  dir2 : DirTableInfo
  fk1 : String
  fk2 : String
deriving DecidableEq, Repr

/-- Model of the `qana::TableInfo` hierarchy as a tagged variant
(`DIRECTOR` / `CHILD` / `MATCH`; unpartitioned tables are represented by the
resolver returning no descriptor). -/
inductive TableInfo
  | dirT (d : DirTableInfo)
  | childT (c : ChildTableInfo)
  | matchT (m : MatchTableInfo)
deriving DecidableEq, Repr

/-- The `(db, name)` key of a descriptor. -/
def TableInfo.key : TableInfo → TKey
  | .dirT d => (d.db, d.name)
  | .childT c => (c.db, c.name)
  | .matchT m => (m.db, m.name)

/-- The descriptor pool (`TableInfoPool::_pool`), a `(db, name)`-sorted
sequence of owned descriptors. -/
abbrev Pool := List TableInfo

/-- Model of the const lookup `TableInfoPool::get(db, table)`:
`std::equal_range` over the sorted pool with the `(db, name)` comparator
(the probe's `kind` is irrelevant to the search), returning the first
equivalent element or null.  On a sorted pool `equal_range` is this linear
scan: skip the strictly smaller prefix, then the first remaining element is
a hit exactly when the probe key is not strictly below it. -/
def getConst (pool : Pool) (db table : String) : Option TableInfo :=
  match pool with
  | [] => none
  | u :: us =>
    if keyLt u.key (db, table) then getConst us db table
    else if keyLt (db, table) u.key then none
    else some u

/-- Model of `TableInfoPool::_insert`: insert the descriptor before
`std::upper_bound`, i.e. before the first strictly larger element, keeping
the pool sorted. -/
def insertPool (t : TableInfo) : Pool → Pool
  | [] => [t]
  | u :: us => if keyLt t.key u.key then t :: u :: us else u :: insertPool t us

/-- Model of `dynamic_cast<DirTableInfo const*>` applied to the result of a
recursive `get`: null unless the descriptor is a director. -/
def castDir : Option TableInfo → Option DirTableInfo
  | some (.dirT d) => some d
  | _ => none

/-- The partitioning block of `css::TableParams` (`chunkLevel()`,
`dirTable`, `dirColName`). -/
structure PartTableParams where
  chunkLevel : Int
  dirTable : String
  dirColName : String

/-- The match block of `css::TableParams` (`isMatchTable()` and the two
director table / column names). -/
structure MatchTableParams where
  isMatchTable : Bool
  dirTable1 : String
  dirTable2 : String
  dirColName1 : String
  dirColName2 : String

/-- Table parameters returned by `css::CssAccess::getTableParams`. -/
structure TableParams where
  partitioning : PartTableParams
  mtch : MatchTableParams

/-- The configuration-store interface consumed by the resolver:
`getTableParams`, `getPartTableParams(db, table).partitionCols()` and
`getDbStriping(db).partitioningId`, as functions of their arguments. -/
structure CssAccess where
  getTableParams : String → String → TableParams
  partitionCols : String → String → List String
  partitioningId : String → Int

/-- The fields of `query::QueryContext` read by the resolver. -/
structure QueryContext where
  defaultDb : String
  css : CssAccess

/-- Model of the mutating resolver
`TableInfoPool::get(ctx, db, table)`.  Empty `db` is substituted by the
context's default database; a pooled descriptor is returned as-is;
`chunkLevel == 0` yields no descriptor; match tables recursively resolve
their two directors (mutating the pool) and validate the match invariants;
director tables require `chunkLevel == 2` and three non-empty pairwise
distinct partition columns — note that the source queries
`getPartTableParams(db, table)` with the original `db` argument, not the
substituted `db_`; child tables require `chunkLevel == 1`, a director and a
non-empty foreign-key column.  `InvalidTableError` is modelled as
`Except.error` with the source's message; the pool (a class member in C++)
is returned alongside, also on the error paths, since mutations performed
before a throw persist.  The C++ recursion is unbounded; `fuel` bounds it
here, and exhaustion is an error. -/
def getP : Nat → QueryContext → Pool → String → String →
    Except String (Option TableInfo) × Pool
  | 0, _, pool, _, _ => (.error "recursion limit reached", pool)
  | fuel + 1, ctx, pool, db, table =>
    let db_ := if db = "" then ctx.defaultDb else db
    match getConst pool db_ table with
    | some t => (.ok (some t), pool)
    | none =>
      let tParam := ctx.css.getTableParams db_ table
      let partParam := tParam.partitioning
      let chunkLevel := partParam.chunkLevel
      if chunkLevel = 0 then (.ok none, pool)
      else if tParam.mtch.isMatchTable then
        let m := tParam.mtch
        match getP fuel ctx pool db_ m.dirTable1 with
        | (.error e, pool1) => (.error e, pool1)
        | (.ok t1, pool1) =>
          match getP fuel ctx pool1 db_ m.dirTable2 with
          | (.error e, pool2) => (.error e, pool2)
          | (.ok t2, pool2) =>
            match castDir t1, castDir t2 with
            | some d1, some d2 =>
              if m.dirColName1 = m.dirColName2 ∨ m.dirColName1 = "" ∨ m.dirColName2 = "" then
                (.error ("Match table " ++ db_ ++ "." ++ table ++
                  " metadata does not contain 2 non-empty and distinct director column names!"),
                 pool2)
              else if d1.partitioningId ≠ d2.partitioningId then
                (.error ("Match table " ++ db_ ++ "." ++ table ++
                  " relates two director tables with different partitionings!"), pool2)
              else
                let mt : MatchTableInfo :=
                  { db := db_, name := table, dir1 := d1, dir2 := d2
                    fk1 := m.dirColName1, fk2 := m.dirColName2 }
                (.ok (some (.matchT mt)), insertPool (.matchT mt) pool2)
            | _, _ =>
              (.error (db_ ++ "." ++ table ++
                " is a match table, but does not reference two director tables!"), pool2)
      else if partParam.dirTable = "" ∨ partParam.dirTable = table then
        if chunkLevel ≠ 2 then
          (.error (db_ ++ "." ++ table ++
            " is a director table, but cannot be sub-chunked!"), pool)
        else
          match ctx.css.partitionCols db table with
          | [a, b, c] =>
            if a = "" ∨ b = "" ∨ c = "" ∨ a = b ∨ b = c ∨ a = c then
              (.error ("Director table " ++ db_ ++ "." ++ table ++
                " metadata does not contain non-empty and distinct director," ++
                " longitude and latitude column names."), pool)
            else
              let d : DirTableInfo :=
                { db := db_, name := table, pk := c, lon := a, lat := b
                  partitioningId := ctx.css.partitioningId db_ }
              (.ok (some (.dirT d)), insertPool (.dirT d) pool)
          | _ =>
            (.error ("Director table " ++ db_ ++ "." ++ table ++
              " metadata does not contain non-empty and distinct director," ++
              " longitude and latitude column names."), pool)
      else if chunkLevel ≠ 1 then
        (.error (db_ ++ "." ++ table ++
          " is a child table, but can be sub-chunked!"), pool)
      else
        match getP fuel ctx pool db_ partParam.dirTable with
        | (.error e, pool1) => (.error e, pool1)
        | (.ok t, pool1) =>
          match castDir t with
          | none =>
            (.error (db_ ++ "." ++ table ++
              " is a child table, but does not reference a director table!"), pool1)
          | some d =>
            if partParam.dirColName = "" then
              (.error ("Child table " ++ db_ ++ "." ++ table ++
                " metadata does not contain a director column name!"), pool1)
            else
              let c : ChildTableInfo :=
                { db := db_, name := table, director := d, fk := partParam.dirColName }
              (.ok (some (.childT c)), insertPool (.childT c) pool1)

/-- A one-column row schema used by the concrete frames below. -/
def sampleCol : ColumnSchemaMsg :=
  { name := "id", hasdefault := false, defaultvalue := "", mysqltype := none
    sqltype := "INT" }

/-- A concrete merger configuration (nonempty target, no fixup), under which
the merge table is named `res`. -/
def sampleCfg : MergerConfig :=
  { targetTable := "res", targetDb := "qdb", needsFixup := false }

/-- A concrete buffer holding exactly one frame: header length byte 1, one
header byte, and a four-byte payload, so `1 + H + payload_size = 6`. -/
def sampleBuf : Bytes := [1, 7, 9, 9, 9, 9]

/-- Concrete environment decoding `sampleBuf` into a header that declares a
four-byte payload with digest `"aaaa"`, while the actual payload hashes to
`"bbbb"` — a digest mismatch.  All SQL operations succeed. -/
def envMdMismatch : WireEnv :=
  { importHeader := fun bs => if bs = [7] then some { size := 4, md5 := "aaaa" } else none
    importResult := fun bs =>
      if bs = [9, 9, 9, 9] then some { session := 1, rowschema := [sampleCol] } else none
    md5 := fun _ => "bbbb"
    connectOk := true
    connectErrNo := 0
    runQueryOk := fun _ => true
    runErrNo := fun _ => 0
    mgrConnected := true
    mgrQueryOk := fun _ => true }

/-- Same environment with a matching digest: `sampleBuf` is a fully
well-formed frame under it. -/
def envGoodFrame : WireEnv :=
  { envMdMismatch with md5 := fun _ => "aaaa" }

/-!
Helper lemmas about the merger's statement stream.
-/

/-- Appending a `LOAD DATA INFILE` statement does not change the number of
`CREATE TABLE` statements in the stream. -/
theorem countCreates_append_load (l : List Stmt) (t : String) (n : Nat) :
    countCreates (l ++ [Stmt.loadInfile t n]) = countCreates l := by
  simp [countCreates, isCreate]

/-- Appending a `CREATE TABLE` statement increments the number of
`CREATE TABLE` statements in the stream by one. -/
theorem countCreates_append_create (l : List Stmt) (t : String) (s : List ColSchema) :
    countCreates (l ++ [Stmt.createTable t s]) = countCreates l + 1 := by
  simp [countCreates, isCreate]

/-- `_applySqlLocal` either issues exactly the given statement, or (when the
lazy connection fails) issues nothing and reports failure. -/
theorem applySqlLocal_stmts (env : WireEnv) (st : MergerState) (stmt : Stmt) :
    (applySqlLocal env st stmt).2.stmts = st.stmts ++ [stmt] ∨
    ((applySqlLocal env st stmt).2.stmts = st.stmts ∧
      (applySqlLocal env st stmt).1 = false) := by
  unfold applySqlLocal runLocal
  split
  · split <;> simp
  · split
    · split <;> simp
    · simp

/-- The per-session invariant behind the at-most-one-`CREATE` guarantee: the
stream never holds more than one `CREATE TABLE`, and while the session still
needs to create the merge table and has no recorded error, the stream holds
none. -/
def CreateInv (st : MergerState) : Prop :=
  countCreates st.stmts ≤ 1 ∧
  (st.needCreateTable = true → st.error.errorCode = 0 → countCreates st.stmts = 0)

/-- `_applySqlLocal` leaves `needCreateTable` untouched. -/
theorem applySqlLocal_needCreateTable (env : WireEnv) (st : MergerState) (stmt : Stmt) :
    (applySqlLocal env st stmt).2.needCreateTable = st.needCreateTable := by
  unfold applySqlLocal runLocal
  split
  · split <;> simp
  · split
    · split <;> simp
    · simp

/-- `_setupTable` preserves the create invariant when entered without a
recorded error (as its only caller guarantees). -/
theorem setupTable_createInv (env : WireEnv) (st : MergerState)
    (h0 : st.error.errorCode = 0) (h : CreateInv st) :
    CreateInv (setupTable env st) := by
  unfold setupTable
  split
  case isTrue hneed =>
    split
    case h_1 => exact h
    case h_2 ms hms =>
      dsimp only
      rcases applySqlLocal_stmts env st (Stmt.createTable st.mergeTable
        (ms.result.rowschema.map toColSchema)) with hst | ⟨hst, _⟩
      · split
        case isTrue hr =>
          refine ⟨?_, ?_⟩
          · simp [hst, countCreates_append_create, h.2 hneed h0]
          · intro hcontra
            simp at hcontra
        case isFalse hr =>
          refine ⟨?_, ?_⟩
          · simp [hst, countCreates_append_create, h.2 hneed h0]
          · intro _ habs
            simp [errCREATE_TABLE] at habs
      · split
        case isTrue hr =>
          exact ⟨by simpa [hst] using h.1, by intro hcontra; simp at hcontra⟩
        case isFalse hr =>
          refine ⟨by simpa [hst] using h.1, ?_⟩
          intro _ habs
          simp [errCREATE_TABLE] at habs
  case isFalse => exact h

/-- The manager connection path issues only the given statement (or nothing),
and touches no error state. -/
theorem mgrApplyMysql_error (env : WireEnv) (st : MergerState) (stmt : Stmt) :
    (mgrApplyMysql env st stmt).2.error = st.error := by
  unfold mgrApplyMysql
  split <;> simp

/-- The manager connection path leaves `needCreateTable` untouched. -/
theorem mgrApplyMysql_needCreateTable (env : WireEnv) (st : MergerState) (stmt : Stmt) :
    (mgrApplyMysql env st stmt).2.needCreateTable = st.needCreateTable := by
  unfold mgrApplyMysql
  split <;> simp

/-- Executing a load action never adds a `CREATE TABLE` to the stream. -/
theorem mgrApplyMysql_countCreates (env : WireEnv) (st : MergerState) (t : String) (n : Nat) :
    countCreates (mgrApplyMysql env st (Stmt.loadInfile t n)).2.stmts =
      countCreates st.stmts := by
  unfold mgrApplyMysql
  split <;> simp [countCreates_append_load]

/-- `_fetchHeader` preserves the create invariant when entered without a
recorded error (as `merge` guarantees). -/
theorem fetchHeader_createInv (env : WireEnv) (st : MergerState) (buf : Bytes)
    (h0 : st.error.errorCode = 0) (h : CreateInv st) :
    CreateInv (fetchHeader env st buf).state := by
  unfold fetchHeader
  dsimp only
  split
  · refine ⟨by simpa [CallOut.state] using h.1, ?_⟩
    intro _ habs
    simp [CallOut.state, errHEADER_IMPORT] at habs
  case h_2 ph hph =>
    split
    · refine ⟨by simpa [CallOut.state] using h.1, ?_⟩
      intro _ habs
      simp [CallOut.state, errHEADER_OVERFLOW] at habs
    · split
      · refine ⟨by simpa [CallOut.state] using h.1, ?_⟩
        intro _ habs
        simp [CallOut.state, errRESULT_IMPORT] at habs
      case h_2 res hres =>
        have h1 : CreateInv { st with msgs := some { protoHeader := ph, result := res } } :=
          ⟨h.1, h.2⟩
        have h2 := setupTable_createInv env
          { st with msgs := some { protoHeader := ph, result := res } } h0 h1
        split
        · exact h2
        case isFalse hz =>
          split
          · refine ⟨by simpa [CallOut.state] using h2.1, ?_⟩
            intro _ habs
            simp [CallOut.state, errRESULT_MD5] at habs
          · constructor
            · rw [CallOut.state, mgrApplyMysql_countCreates]
              exact h2.1
            · intro hn _
              rw [CallOut.state, mgrApplyMysql_countCreates]
              rw [CallOut.state, mgrApplyMysql_needCreateTable] at hn
              refine h2.2 hn ?_
              simpa using hz

/-- One `merge` call preserves the create invariant. -/
theorem merge_createInv (env : WireEnv) (st : MergerState) (buf : Bytes)
    (h : CreateInv st) : CreateInv (merge env st buf).state := by
  unfold merge
  split
  · exact h
  case isFalse hz =>
    split
    case isTrue =>
      have h0 : st.error.errorCode = 0 := by simpa using hz
      have hf := fetchHeader_createInv env st buf h0 h
      split
      case h_1 st' heq => simpa [heq, CallOut.state] using hf
      case h_2 n st' heq =>
        split <;> simpa [heq, CallOut.state] using hf
    case isFalse => exact h

/-- Any sequence of `merge` calls preserves the create invariant. -/
theorem runMerges_createInv (env : WireEnv) (bufs : List Bytes) :
    ∀ st : MergerState, CreateInv st → CreateInv (runMerges env st bufs) := by
  induction bufs with
  | nil => intro st h; exact h
  | cons b bs ih =>
    intro st h
    exact ih _ (merge_createInv env st b h)

/-- A freshly constructed session satisfies the create invariant. -/
theorem initMerger_createInv (c : MergerConfig) (ts : String) :
    CreateInv (initMerger c ts) := by
  constructor
  · simp [initMerger, countCreates]
  · intro _ _
    simp [initMerger, countCreates]

/-- C1: at most one `CREATE TABLE` statement is issued to the SQL engine per
Query Session, over any sequence of `merge` calls from construction; a
successful `_setupTable` on a session that still needs the merge table
issues exactly the `CREATE TABLE` DDL and clears `_needCreateTable`; and
once `_needCreateTable` has been cleared, every later `_setupTable` call
leaves the session (and hence the engine's statement stream) unchanged. -/
theorem atMostOneCreatePerSession :
    (∀ (env : WireEnv) (c : MergerConfig) (ts : String) (bufs : List Bytes),
      countCreates (runMerges env (initMerger c ts) bufs).stmts ≤ 1) ∧
    (∀ (env : WireEnv) (st : MergerState) (ms : Msgs),
      st.needCreateTable = true → st.msgs = some ms → st.sqlConnected = true →
      env.runQueryOk (Stmt.createTable st.mergeTable
        (ms.result.rowschema.map toColSchema)) = true →
      (setupTable env st).stmts = st.stmts ++
        [Stmt.createTable st.mergeTable (ms.result.rowschema.map toColSchema)] ∧
      (setupTable env st).needCreateTable = false) ∧
    (∀ (env : WireEnv) (st : MergerState),
      st.needCreateTable = false → setupTable env st = st) := by
  refine ⟨?_, ?_, ?_⟩
  · intro env c ts bufs
    exact (runMerges_createInv env bufs _ (initMerger_createInv c ts)).1
  · intro env st ms hn hm hc hq
    simp [setupTable, applySqlLocal, runLocal, hn, hm, hc, hq]
  · intro env st hn
    simp [setupTable, hn]

/-- A fresh session over `sampleCfg` whose lazy SQL connection is already
established. -/
def connectedFreshSession : MergerState :=
  { initMerger sampleCfg "1" with sqlConnected := true }

/-- The default-constructed `Msgs` held by a fresh session. -/
def emptyMsgs : Msgs :=
  { protoHeader := { size := 0, md5 := "" }
    result := { session := 0, rowschema := [] } }

/-- Witness for `atMostOneCreatePerSession` at a concrete session: a
concrete one-buffer trace, a successful concrete `_setupTable`, and a state
with the create flag already cleared. -/
theorem atMostOneCreatePerSession_witness :
    countCreates (runMerges envGoodFrame (initMerger sampleCfg "1")
      [sampleBuf]).stmts ≤ 1 ∧
    ((setupTable envGoodFrame connectedFreshSession).stmts =
      connectedFreshSession.stmts ++
        [Stmt.createTable connectedFreshSession.mergeTable
          (emptyMsgs.result.rowschema.map toColSchema)] ∧
      (setupTable envGoodFrame connectedFreshSession).needCreateTable = false) ∧
    (setupTable envGoodFrame
      { connectedFreshSession with needCreateTable := false } =
      { connectedFreshSession with needCreateTable := false }) := by
  refine ⟨?_, ?_, ?_⟩
  · exact atMostOneCreatePerSession.1 _ _ _ _
  · refine atMostOneCreatePerSession.2.1 envGoodFrame connectedFreshSession emptyMsgs
      ?_ ?_ ?_ ?_ <;> decide
  · exact atMostOneCreatePerSession.2.2 _ _ rfl

/-- C4: once an error is recorded on the session (`_error.errorCode`
nonzero), every subsequent `merge` returns -1 immediately with the session
state — including the recorded error and the statement stream — unchanged,
and `finalize` likewise returns failure without touching the state or
issuing SQL. -/
theorem errorShortCircuit (env : WireEnv) (st : MergerState) (buf : Bytes)
    (h : st.error.errorCode ≠ 0) :
    merge env st buf = .ret (-1) st ∧ finalize st = (false, st) := by
  simp [merge, finalize, h]

/-- Witness for `errorShortCircuit` at a concrete errored session. -/
theorem errorShortCircuit_witness :
    merge
      { importHeader := fun _ => none, importResult := fun _ => none
        md5 := fun _ => "", connectOk := true, connectErrNo := 0
        runQueryOk := fun _ => true, runErrNo := fun _ => 0
        mgrConnected := true, mgrQueryOk := fun _ => true }
      { initMerger { targetTable := "t", targetDb := "d", needsFixup := false } "1" with
        error := { status := 0, errorCode := 4, description := "Result message MD5 mismatch" } }
      [0, 1, 2] =
      .ret (-1)
        { initMerger { targetTable := "t", targetDb := "d", needsFixup := false } "1" with
          error := { status := 0, errorCode := 4, description := "Result message MD5 mismatch" } } ∧
    finalize
      { initMerger { targetTable := "t", targetDb := "d", needsFixup := false } "1" with
        error := { status := 0, errorCode := 4, description := "Result message MD5 mismatch" } } =
      (false,
        { initMerger { targetTable := "t", targetDb := "d", needsFixup := false } "1" with
          error := { status := 0, errorCode := 4, description := "Result message MD5 mismatch" } }) :=
  errorShortCircuit _ _ _ (by decide)

/-- C5: `finalize` is idempotent — the compiled function (its body is
`#if 0`-guarded in the source) returns `false` unconditionally without
touching the session, so a second call returns the same result as the first
and the statement stream gains nothing. -/
theorem finalizeIdempotent (st : MergerState) :
    (finalize (finalize st).2).1 = (finalize st).1 ∧
    (finalize (finalize st).2).2.stmts = (finalize st).2.stmts := by
  simp [finalize]

/-- C10: after construction, the session's target table is the configured
`targetTable` when nonempty, and `targetDb.result_<timestamp>` (with the
timestamp from `getTimeStampId`) when the configured `targetTable` is empty
(the source asserts `targetDb` nonempty in that case); the merge table is
the resulting target name with `_m` appended exactly when the configuration
requires a fixup. -/
theorem mergeTableNaming (c : MergerConfig) (sec usec : Nat)
    (_hdb : c.targetDb ≠ "") :
    (c.targetTable = "" →
      (initMerger c (getTimeStampId sec usec)).config.targetTable =
        c.targetDb ++ ".result_" ++ toString (sec % 10000) ++ toString usec) ∧
    (c.targetTable ≠ "" →
      (initMerger c (getTimeStampId sec usec)).config.targetTable = c.targetTable) ∧
    (initMerger c (getTimeStampId sec usec)).mergeTable =
      (if c.needsFixup
       then (initMerger c (getTimeStampId sec usec)).config.targetTable ++ "_m"
       else (initMerger c (getTimeStampId sec usec)).config.targetTable) := by
  refine ⟨?_, ?_, ?_⟩
  · intro he
    simp [initMerger, fixupTargetName, getTimeStampId, he, String.append_assoc]
  · intro hne
    simp [initMerger, fixupTargetName, hne]
  · by_cases he : c.targetTable = "" <;>
      simp [initMerger, fixupTargetName, he]

/-- Witness for `mergeTableNaming` at a concrete configuration (empty
`targetTable`, fixup required). -/
theorem mergeTableNaming_witness :
    (("" : String) = "" →
      (initMerger { targetTable := "", targetDb := "qdb", needsFixup := true }
        (getTimeStampId 12345 678)).config.targetTable =
        "qdb" ++ ".result_" ++ toString (12345 % 10000) ++ toString 678) ∧
    (("" : String) ≠ "" →
      (initMerger { targetTable := "", targetDb := "qdb", needsFixup := true }
        (getTimeStampId 12345 678)).config.targetTable = "") ∧
    (initMerger { targetTable := "", targetDb := "qdb", needsFixup := true }
      (getTimeStampId 12345 678)).mergeTable =
      (if true
       then (initMerger { targetTable := "", targetDb := "qdb", needsFixup := true }
         (getTimeStampId 12345 678)).config.targetTable ++ "_m"
       else (initMerger { targetTable := "", targetDb := "qdb", needsFixup := true }
         (getTimeStampId 12345 678)).config.targetTable) :=
  mergeTableNaming { targetTable := "", targetDb := "qdb", needsFixup := true } 12345 678
    (by decide)

/-- C2, counterexample: on the digest-mismatched frame `sampleBuf`, the
first `merge` does record `RESULT_MD5`, but a `CREATE TABLE` statement for
the merge table HAS been issued while processing that frame (the DDL runs
before the digest check in `_fetchHeader`), and the call returns 0 rather
than an error return — refuting the claim that no merge table is created. -/
theorem mdMismatchCreates_counterexample :
    (merge envMdMismatch (initMerger sampleCfg "1") sampleBuf).state.error.errorCode =
      errRESULT_MD5 ∧
    countCreates (merge envMdMismatch (initMerger sampleCfg "1") sampleBuf).state.stmts = 1 ∧
    (merge envMdMismatch (initMerger sampleCfg "1") sampleBuf).value = some 0 := by
  refine ⟨?_, ?_, ?_⟩ <;> rfl

/-- C2, amended: for every session with no recorded error that still awaits
its first header and merge table, and every buffer whose frame decodes but
whose payload digest mismatches the declared digest, `merge` records
`RESULT_MD5` on the session and returns 0 (so later calls short-circuit),
but the `CREATE TABLE` statement for the merge table is issued before the
digest check, adding exactly one `CREATE` to the engine's statement
stream. -/
theorem mdMismatchRecordsButCreates (env : WireEnv) (st : MergerState) (buf : Bytes)
    (ph : ProtoHeaderMsg) (res : ResultMsg)
    (h0 : st.error.errorCode = 0)
    (hH : st.needHeader = true)
    (hN : st.needCreateTable = true)
    (hph : env.importHeader ((buf.drop 1).take (buf.headD 0)) = some ph)
    (hfit : ¬ ((buf.length : Int) - 1 - ((buf.headD 0 : Nat) : Int) < ph.size))
    (hres : env.importResult (((buf.drop 1).drop (buf.headD 0)).take ph.size.toNat) = some res)
    (hconn : st.sqlConnected = true)
    (hq : env.runQueryOk
      (Stmt.createTable st.mergeTable (res.rowschema.map toColSchema)) = true)
    (hmd5 : ph.md5 ≠ env.md5 (((buf.drop 1).drop (buf.headD 0)).take ph.size.toNat)) :
    (merge env st buf).value = some 0 ∧
    (merge env st buf).state.error.errorCode = errRESULT_MD5 ∧
    countCreates (merge env st buf).state.stmts = countCreates st.stmts + 1 := by
  have h0' : ¬ st.error.errorCode ≠ 0 := by simp [h0]
  simp only [merge, h0', if_false, hH, if_true]
  unfold fetchHeader
  dsimp only
  rw [hph]
  dsimp only
  rw [if_neg hfit, hres]
  simp only [setupTable, hN, if_true]
  simp only [applySqlLocal, hconn, if_true, runLocal, hq]
  rw [if_neg h0', if_pos hmd5]
  simp [CallOut.value, CallOut.state, countCreates_append_create]

/-- Witness for `mdMismatchRecordsButCreates` at the concrete
digest-mismatched frame (session with the lazy SQL connection already up). -/
theorem mdMismatchRecordsButCreates_witness :
    (merge envMdMismatch { initMerger sampleCfg "1" with sqlConnected := true }
      sampleBuf).value = some 0 ∧
    (merge envMdMismatch { initMerger sampleCfg "1" with sqlConnected := true }
      sampleBuf).state.error.errorCode = errRESULT_MD5 ∧
    countCreates (merge envMdMismatch { initMerger sampleCfg "1" with sqlConnected := true }
      sampleBuf).state.stmts =
      countCreates ({ initMerger sampleCfg "1" with
        sqlConnected := true } : MergerState).stmts + 1 :=
  mdMismatchRecordsButCreates envMdMismatch
    { initMerger sampleCfg "1" with sqlConnected := true } sampleBuf
    { size := 4, md5 := "aaaa" } { session := 1, rowschema := [sampleCol] }
    rfl rfl rfl (by decide) (by decide) (by decide) rfl rfl (by decide)

/-- C3: on a buffer holding exactly one well-formed frame with
`1 + H + payload_size = 6` bytes, `merge` fully processes the frame — the
header is consumed (`needHeader` cleared) and both the `CREATE TABLE` and the
`LOAD DATA INFILE` statements are issued — yet returns 0 instead of 6,
because `_fetchHeader` returns 0 on success and `merge` maps a 0 return to
"buffer not big enough".  This contradicts both the spec's
`bytes_consumed = 1 + H + payload_size` contract and the source's own
comments. -/
theorem goodFrameReturnsZero :
    (merge envGoodFrame (initMerger sampleCfg "1") sampleBuf).value = some 0 ∧
    (merge envGoodFrame (initMerger sampleCfg "1") sampleBuf).state.needHeader = false ∧
    (merge envGoodFrame (initMerger sampleCfg "1") sampleBuf).state.stmts =
      [Stmt.createTable "res"
        [{ name := "id", hasDefault := false, defaultValue := ""
           mysqlType := "", sqlType := "INT" }],
       Stmt.loadInfile "res" 0] ∧
    sampleBuf.length = 1 + 1 + 4 := by
  refine ⟨rfl, rfl, rfl, rfl⟩

/-!
Helper lemmas about the pool order, lookup and insertion.
-/

/-- The key order is irreflexive. -/
theorem keyLt_irrefl (a : TKey) : ¬ keyLt a a := by
  simp [keyLt]

/-- The key order is transitive. -/
theorem keyLt_trans {a b c : TKey} (h1 : keyLt a b) (h2 : keyLt b c) : keyLt a c := by
  rcases h1 with h1 | ⟨e1, h1⟩ <;> rcases h2 with h2 | ⟨e2, h2⟩
  · exact Or.inl (lt_trans h1 h2)
  · exact Or.inl (e2 ▸ h1)
  · exact Or.inl (e1 ▸ h2)
  · exact Or.inr ⟨e1.trans e2, lt_trans h1 h2⟩

/-- Keys that are mutually not below each other are equal (the comparator is
a strict weak order whose equivalence is equality of the pairs). -/
theorem keyLt_conn {a b : TKey} (h1 : ¬ keyLt a b) (h2 : ¬ keyLt b a) : a = b := by
  obtain ⟨a1, a2⟩ := a
  obtain ⟨b1, b2⟩ := b
  simp only [keyLt, not_or, not_and] at h1 h2
  have e1 : a1 = b1 :=
    String.toList_inj.mp (le_antisymm (not_lt.mp h2.1) (not_lt.mp h1.1))
  have e2 : a2 = b2 :=
    String.toList_inj.mp (le_antisymm (not_lt.mp (h2.2 e1.symm)) (not_lt.mp (h1.2 e1)))
  rw [e1, e2]

/-- The pool invariant maintained by `_insert`: strictly sorted by the
`(db, name)` key (descriptors are unique by key, per the spec). -/
def PoolSorted (pool : Pool) : Prop :=
  List.Pairwise (fun a b => keyLt a.key b.key) pool

/-- A successful const lookup returns an element of the pool whose key is
the probe key (no sortedness needed for soundness). -/
theorem getConst_mem_key {pool : Pool} {db table : String} {t : TableInfo}
    (h : getConst pool db table = some t) :
    t ∈ pool ∧ t.key = (db, table) := by
  induction pool with
  | nil => simp [getConst] at h
  | cons u us ih =>
    unfold getConst at h
    split at h
    · rcases ih h with ⟨hm, hk⟩
      exact ⟨List.mem_cons_of_mem _ hm, hk⟩
    case isFalse hlt1 =>
      split at h
      · cases h
      case isFalse hlt2 =>
        cases h
        exact ⟨List.mem_cons_self _ _, keyLt_conn hlt1 hlt2⟩

/-- On a sorted pool, a failed const lookup means no pooled descriptor has
the probe key (completeness of `equal_range`). -/
theorem getConst_none {pool : Pool} {db table : String} (hs : PoolSorted pool)
    (h : getConst pool db table = none) :
    ∀ t ∈ pool, t.key ≠ (db, table) := by
  induction pool with
  | nil => simp
  | cons u us ih =>
    cases hs with
    | cons hh ht =>
      intro t hmem
      unfold getConst at h
      split at h
      case isTrue hlt =>
        rcases List.mem_cons.mp hmem with rfl | hm
        · intro he
          rw [he] at hlt
          exact keyLt_irrefl _ hlt
        · exact ih ht h t hm
      case isFalse hlt =>
        split at h
        case isTrue hgt =>
          rcases List.mem_cons.mp hmem with rfl | hm
          · intro he
            rw [he] at hgt
            exact keyLt_irrefl _ hgt
          · intro he
            have hut : keyLt u.key t.key := hh t hm
            have : keyLt (db, table) t.key := keyLt_trans hgt hut
            rw [he] at this
            exact keyLt_irrefl _ this
        case isFalse => cases h

/-- `_insert` only adds: the old pool is a sublist of the new one. -/
theorem sublist_insertPool (t : TableInfo) (l : Pool) : List.Sublist l (insertPool t l) := by
  induction l with
  | nil => simp [insertPool]
  | cons u us ih =>
    unfold insertPool
    split
    · exact List.sublist_cons_self _ _
    · exact List.Sublist.cons₂ u ih

/-- The inserted descriptor is a member of the result of `_insert`. -/
theorem mem_insertPool_self (t : TableInfo) (l : Pool) : t ∈ insertPool t l := by
  induction l with
  | nil => simp [insertPool]
  | cons u us ih =>
    unfold insertPool
    split
    · exact List.mem_cons_self _ _
    · exact List.mem_cons_of_mem _ ih

/-- Membership in the result of `_insert` is membership in the old pool or
being the inserted descriptor. -/
theorem mem_insertPool {t u : TableInfo} {l : Pool} :
    t ∈ insertPool u l ↔ t = u ∨ t ∈ l := by
  induction l with
  | nil => simp [insertPool]
  | cons v vs ih =>
    unfold insertPool
    split
    · simp [List.mem_cons]
    · simp only [List.mem_cons, ih]
      tauto

/-- A successful `dynamic_cast` to a director means the operand was a
director descriptor. -/
theorem castDir_eq_some {o : Option TableInfo} {d : DirTableInfo}
    (h : castDir o = some d) : o = some (.dirT d) := by
  match o with
  | none => simp [castDir] at h
  | some (.dirT d') => cases h; rfl
  | some (.childT c) => simp [castDir] at h
  | some (.matchT m) => simp [castDir] at h

/-- The resolver only ever adds to the pool: whatever the outcome (success,
`InvalidTable`, or fuel exhaustion), the pool before the call is a sublist
of the pool after it. -/
theorem getP_pool_sublist (fuel : Nat) :
    ∀ (ctx : QueryContext) (pool : Pool) (db table : String),
      List.Sublist pool (getP fuel ctx pool db table).2 := by
  induction fuel with
  | zero =>
    intro ctx pool db table
    simp [getP]
  | succ n ih =>
    intro ctx pool db table
    simp only [getP]
    set D := if db = "" then ctx.defaultDb else db with hD
    split
    · simp
    · split
      · simp
      · split
        · split
          case h_1 e pool1 heq1 =>
            have s1 := ih ctx pool D (ctx.css.getTableParams D table).mtch.dirTable1
            rw [heq1] at s1
            exact s1
          case h_2 t1 pool1 heq1 =>
            have s1 := ih ctx pool D (ctx.css.getTableParams D table).mtch.dirTable1
            rw [heq1] at s1
            split
            case h_1 e pool2 heq2 =>
              have s2 := ih ctx pool1 D (ctx.css.getTableParams D table).mtch.dirTable2
              rw [heq2] at s2
              exact s1.trans s2
            case h_2 t2 pool2 heq2 =>
              have s2 := ih ctx pool1 D (ctx.css.getTableParams D table).mtch.dirTable2
              rw [heq2] at s2
              have s12 := s1.trans s2
              split
              · split
                · exact s12
                · split
                  · exact s12
                  · exact s12.trans (sublist_insertPool _ _)
              · exact s12
        · split
          · split
            · simp
            · split
              · split
                · simp
                · exact sublist_insertPool _ _
              · simp
          · split
            · simp
            · split
              case h_1 e pool1 heq1 =>
                have s1 := ih ctx pool D (ctx.css.getTableParams D table).partitioning.dirTable
                rw [heq1] at s1
                exact s1
              case h_2 t1 pool1 heq1 =>
                have s1 := ih ctx pool D (ctx.css.getTableParams D table).partitioning.dirTable
                rw [heq1] at s1
                split
                · exact s1
                · split
                  · exact s1
                  · exact s1.trans (sublist_insertPool _ _)

/-- The match-table well-formedness predicate relative to a pool: a match
descriptor references two directors present in the pool, with equal
partitioning ids and distinct non-empty foreign-key column names; directors
and children impose nothing here. -/
def MatchOk (pool : Pool) : TableInfo → Prop
  | .matchT m =>
    TableInfo.dirT m.dir1 ∈ pool ∧ TableInfo.dirT m.dir2 ∈ pool ∧
    m.dir1.partitioningId = m.dir2.partitioningId ∧
    m.fk1 ≠ m.fk2 ∧ m.fk1 ≠ "" ∧ m.fk2 ≠ ""
  | _ => True

/-- Pool-wide match invariant: every pooled match descriptor is well formed
with respect to the pool. -/
def PoolMatchInv (pool : Pool) : Prop :=
  ∀ t ∈ pool, MatchOk pool t

/-- `MatchOk` is monotone under pool growth. -/
theorem MatchOk_mono {pool pool' : Pool} {t : TableInfo}
    (h : MatchOk pool t) (hs : List.Sublist pool pool') : MatchOk pool' t := by
  cases t with
  | dirT d => trivial
  | childT c => trivial
  | matchT m =>
    obtain ⟨h1, h2, h3, h4, h5, h6⟩ := h
    exact ⟨hs.subset h1, hs.subset h2, h3, h4, h5, h6⟩

/-- Inserting a descriptor that is well formed in the grown pool preserves
the pool-wide match invariant. -/
theorem PoolMatchInv_insert {pool : Pool} {t : TableInfo}
    (hinv : PoolMatchInv pool) (ht : MatchOk (insertPool t pool) t) :
    PoolMatchInv (insertPool t pool) := by
  intro u hu
  rcases mem_insertPool.mp hu with rfl | hm
  · exact ht
  · exact MatchOk_mono (hinv u hm) (sublist_insertPool _ _)

/-- Main soundness induction for the resolver: starting from a pool whose
match descriptors are well formed, any `get` call leaves the pool well
formed, and any returned descriptor is pooled and well formed in the final
pool. -/
theorem getP_strong (fuel : Nat) :
    ∀ (ctx : QueryContext) (pool : Pool) (db table : String),
      PoolMatchInv pool →
      PoolMatchInv (getP fuel ctx pool db table).2 ∧
      ∀ t, (getP fuel ctx pool db table).1 = .ok (some t) →
        t ∈ (getP fuel ctx pool db table).2 ∧
        MatchOk (getP fuel ctx pool db table).2 t := by
  induction fuel with
  | zero =>
    intro ctx pool db table hinv
    refine ⟨by simpa [getP] using hinv, ?_⟩
    intro t h
    simp [getP] at h
  | succ n ih =>
    intro ctx pool db table hinv
    simp only [getP]
    set D := if db = "" then ctx.defaultDb else db with hD
    split
    case h_1 t0 heq0 =>
      refine ⟨hinv, ?_⟩
      intro t h
      simp only [Except.ok.injEq, Option.some.injEq] at h
      subst h
      exact ⟨(getConst_mem_key heq0).1, hinv _ (getConst_mem_key heq0).1⟩
    case h_2 heq0 =>
      split
      · exact ⟨hinv, by intro t h; simp at h⟩
      · split
        · -- match table branch
          split
          case h_1 e pool1 heq1 =>
            have ih1 := ih ctx pool D (ctx.css.getTableParams D table).mtch.dirTable1 hinv
            rw [heq1] at ih1
            exact ⟨ih1.1, by intro t h; simp at h⟩
          case h_2 t1 pool1 heq1 =>
            have ih1 := ih ctx pool D (ctx.css.getTableParams D table).mtch.dirTable1 hinv
            rw [heq1] at ih1
            have inv1 : PoolMatchInv pool1 := ih1.1
            split
            case h_1 e pool2 heq2 =>
              have ih2 := ih ctx pool1 D (ctx.css.getTableParams D table).mtch.dirTable2 inv1
              rw [heq2] at ih2
              exact ⟨ih2.1, by intro t h; simp at h⟩
            case h_2 t2 pool2 heq2 =>
              have ih2 := ih ctx pool1 D (ctx.css.getTableParams D table).mtch.dirTable2 inv1
              rw [heq2] at ih2
              have inv2 : PoolMatchInv pool2 := ih2.1
              have s2 : List.Sublist pool1 pool2 := by
                have := getP_pool_sublist n ctx pool1 D
                  (ctx.css.getTableParams D table).mtch.dirTable2
                rw [heq2] at this
                exact this
              split
              case h_1 d1 d2 hc1 hc2 =>
                split
                case isTrue => exact ⟨inv2, by intro t h; simp at h⟩
                case isFalse hcol =>
                  split
                  case isTrue => exact ⟨inv2, by intro t h; simp at h⟩
                  case isFalse hpid =>
                    have memd1 : TableInfo.dirT d1 ∈ pool2 := by
                      have hmem := (ih1.2 (TableInfo.dirT d1)
                        (by rw [castDir_eq_some hc1])).1
                      exact s2.subset hmem
                    have memd2 : TableInfo.dirT d2 ∈ pool2 :=
                      (ih2.2 (TableInfo.dirT d2) (by rw [castDir_eq_some hc2])).1
                    have hpid' : d1.partitioningId = d2.partitioningId := not_not.mp hpid
                    have hcol' := hcol
                    push_neg at hcol'
                    obtain ⟨hne, hne1, hne2⟩ := hcol'
                    have hins := sublist_insertPool
                      (TableInfo.matchT
                        { db := D, name := table, dir1 := d1, dir2 := d2
                          fk1 := (ctx.css.getTableParams D table).mtch.dirColName1
                          fk2 := (ctx.css.getTableParams D table).mtch.dirColName2 }) pool2
                    have mOk : MatchOk
                        (insertPool (TableInfo.matchT
                          { db := D, name := table, dir1 := d1, dir2 := d2
                            fk1 := (ctx.css.getTableParams D table).mtch.dirColName1
                            fk2 := (ctx.css.getTableParams D table).mtch.dirColName2 }) pool2)
                        (TableInfo.matchT
                          { db := D, name := table, dir1 := d1, dir2 := d2
                            fk1 := (ctx.css.getTableParams D table).mtch.dirColName1
                            fk2 := (ctx.css.getTableParams D table).mtch.dirColName2 }) :=
                      ⟨hins.subset memd1, hins.subset memd2, hpid', hne, hne1, hne2⟩
                    refine ⟨PoolMatchInv_insert inv2 mOk, ?_⟩
                    intro t h
                    simp only [Except.ok.injEq, Option.some.injEq] at h
                    subst h
                    exact ⟨mem_insertPool_self _ _, mOk⟩
              case h_2 =>
                exact ⟨inv2, by intro t h; simp at h⟩
        · split
          · -- director table branch
            split
            · exact ⟨hinv, by intro t h; simp at h⟩
            · split
              case h_1 a b c hcols =>
                split
                case isTrue => exact ⟨hinv, by intro t h; simp at h⟩
                case isFalse hv =>
                  refine ⟨PoolMatchInv_insert hinv trivial, ?_⟩
                  intro t h
                  simp only [Except.ok.injEq, Option.some.injEq] at h
                  subst h
                  exact ⟨mem_insertPool_self _ _, trivial⟩
              case h_2 =>
                exact ⟨hinv, by intro t h; simp at h⟩
          · -- child table branch
            split
            · exact ⟨hinv, by intro t h; simp at h⟩
            · split
              case h_1 e pool1 heq1 =>
                have ih1 := ih ctx pool D
                  (ctx.css.getTableParams D table).partitioning.dirTable hinv
                rw [heq1] at ih1
                exact ⟨ih1.1, by intro t h; simp at h⟩
              case h_2 t1 pool1 heq1 =>
                have ih1 := ih ctx pool D
                  (ctx.css.getTableParams D table).partitioning.dirTable hinv
                rw [heq1] at ih1
                have inv1 : PoolMatchInv pool1 := ih1.1
                split
                · exact ⟨inv1, by intro t h; simp at h⟩
                case h_2 d hc =>
                  split
                  case isTrue => exact ⟨inv1, by intro t h; simp at h⟩
                  case isFalse hfk =>
                    refine ⟨PoolMatchInv_insert inv1 trivial, ?_⟩
                    intro t h
                    simp only [Except.ok.injEq, Option.some.injEq] at h
                    subst h
                    exact ⟨mem_insertPool_self _ _, trivial⟩

/-- C6: every match descriptor the resolver returns references two director
descriptors that exist in the resulting pool, with equal partitioning ids
and two distinct, non-empty foreign-key column names — provided the pool's
own match descriptors were well formed (true in particular of the empty
pool).  Contrapositively, a violation can never be returned: those paths
raise `InvalidTable`. -/
theorem matchDescriptorInvariants (fuel : Nat) (ctx : QueryContext) (pool : Pool)
    (db table : String) (mt : MatchTableInfo) (pool' : Pool)
    (hinv : PoolMatchInv pool)
    (h : getP fuel ctx pool db table = (.ok (some (.matchT mt)), pool')) :
    TableInfo.dirT mt.dir1 ∈ pool' ∧ TableInfo.dirT mt.dir2 ∈ pool' ∧
    mt.dir1.partitioningId = mt.dir2.partitioningId ∧
    mt.fk1 ≠ mt.fk2 ∧ mt.fk1 ≠ "" ∧ mt.fk2 ≠ "" := by
  have hs := getP_strong fuel ctx pool db table hinv
  have h2 := hs.2 (.matchT mt) (by rw [h])
  rw [h] at h2
  exact h2.2

/-- Store parameters describing a director table (`chunkLevel` 2, empty
`dirTable`, no match block). -/
def mkDirParams : TableParams :=
  { partitioning := { chunkLevel := 2, dirTable := "", dirColName := "" }
    mtch := { isMatchTable := false, dirTable1 := "", dirTable2 := ""
              dirColName1 := "", dirColName2 := "" } }

/-- Store parameters describing a match table over directors `Object` and
`Source` with the given two foreign-key column names. -/
def mkMatchParams (c1 c2 : String) : TableParams :=
  { partitioning := { chunkLevel := 1, dirTable := "", dirColName := "" }
    mtch := { isMatchTable := true, dirTable1 := "Object", dirTable2 := "Source"
              dirColName1 := c1, dirColName2 := c2 } }

/-- Concrete store for the well-formed match scenario: `RefMatch` relates
`Object` and `Source` through `objectId`/`sourceId`; every table partitions
on `(ra, decl, objectId)` and the database stripes with id 17. -/
def cssRefMatch : CssAccess :=
  { getTableParams := fun _ t =>
      if t = "RefMatch" then mkMatchParams "objectId" "sourceId" else mkDirParams
    partitionCols := fun _ _ => ["ra", "decl", "objectId"]
    partitioningId := fun _ => 17 }

/-- Query context with default database `LSST` over `cssRefMatch`. -/
def ctxRefMatch : QueryContext := { defaultDb := "LSST", css := cssRefMatch }

/-- The `Object` director descriptor produced under `cssRefMatch`. -/
def dirObject : DirTableInfo :=
  { db := "LSST", name := "Object", pk := "objectId", lon := "ra", lat := "decl"
    partitioningId := 17 }

/-- The `Source` director descriptor produced under `cssRefMatch`. -/
def dirSource : DirTableInfo :=
  { db := "LSST", name := "Source", pk := "objectId", lon := "ra", lat := "decl"
    partitioningId := 17 }

/-- The `RefMatch` match descriptor produced under `cssRefMatch`. -/
def mtRefMatch : MatchTableInfo :=
  { db := "LSST", name := "RefMatch", dir1 := dirObject, dir2 := dirSource
    fk1 := "objectId", fk2 := "sourceId" }

/-- Witness for `matchDescriptorInvariants` at the concrete `RefMatch`
resolution from the empty pool. -/
theorem matchDescriptorInvariants_witness :
    TableInfo.dirT mtRefMatch.dir1 ∈
      [TableInfo.dirT dirObject, TableInfo.matchT mtRefMatch, TableInfo.dirT dirSource] ∧
    TableInfo.dirT mtRefMatch.dir2 ∈
      [TableInfo.dirT dirObject, TableInfo.matchT mtRefMatch, TableInfo.dirT dirSource] ∧
    mtRefMatch.dir1.partitioningId = mtRefMatch.dir2.partitioningId ∧
    mtRefMatch.fk1 ≠ mtRefMatch.fk2 ∧ mtRefMatch.fk1 ≠ "" ∧ mtRefMatch.fk2 ≠ "" :=
  matchDescriptorInvariants 10 ctxRefMatch [] "LSST" "RefMatch" mtRefMatch
    [TableInfo.dirT dirObject, TableInfo.matchT mtRefMatch, TableInfo.dirT dirSource]
    (by intro t ht; simp at ht) rfl

/-- Concrete store for a failing match scenario: as `cssRefMatch`, but
`RefMatch` declares the same foreign-key column name twice, violating the
match invariant. -/
def cssBadMatch : CssAccess :=
  { getTableParams := fun _ t =>
      if t = "RefMatch" then mkMatchParams "objectId" "objectId" else mkDirParams
    partitionCols := fun _ _ => ["ra", "decl", "objectId"]
    partitioningId := fun _ => 17 }

/-- Query context with default database `LSST` over `cssBadMatch`. -/
def ctxBadMatch : QueryContext := { defaultDb := "LSST", css := cssBadMatch }

/-- C7, counterexample: resolving the invalid match table `RefMatch` from
the EMPTY pool raises `InvalidTable`, yet the pool after the call holds two
descriptors (the recursively resolved directors `Object` and `Source`),
refuting the claim that the pool is left exactly as it was before the
call. -/
theorem invalidTableGrowsPool_counterexample :
    (getP 10 ctxBadMatch [] "LSST" "RefMatch").1 =
      .error ("Match table LSST.RefMatch metadata does not contain 2 non-empty" ++
        " and distinct director column names!") ∧
    (getP 10 ctxBadMatch [] "LSST" "RefMatch").2.length = 2 ∧
    ([] : Pool).length = 0 := by
  refine ⟨rfl, rfl, rfl⟩

/-- C7, amended: whenever `get` raises `InvalidTable`, no descriptor is
returned and every descriptor present before the call is still present, in
order, after it (the failing descriptor itself is discarded before
insertion); however, descriptors constructed by recursive resolution before
the failure — such as the two directors of a failing match table — remain in
the pool, so the pool may have grown. -/
theorem invalidTablePreservesExisting (fuel : Nat) (ctx : QueryContext)
    (pool : Pool) (db table : String) (e : String) (pool' : Pool)
    (h : getP fuel ctx pool db table = (.error e, pool')) :
    List.Sublist pool pool' := by
  have hs := getP_pool_sublist fuel ctx pool db table
  rw [h] at hs
  exact hs

/-- Witness for `invalidTablePreservesExisting` at the concrete failing
`RefMatch` resolution (the empty pool is a sublist of the grown pool). -/
theorem invalidTablePreservesExisting_witness :
    List.Sublist ([] : Pool) [TableInfo.dirT dirObject, TableInfo.dirT dirSource] :=
  invalidTablePreservesExisting 10 ctxBadMatch [] "LSST" "RefMatch"
    ("Match table LSST.RefMatch metadata does not contain 2 non-empty" ++
      " and distinct director column names!")
    [TableInfo.dirT dirObject, TableInfo.dirT dirSource] rfl

/-- Concrete store under which the partition columns are only available for
database `LSST`: querying them for any other database name (in particular
the empty string) yields no columns. -/
def cssDefaultDb : CssAccess :=
  { getTableParams := fun _ _ => mkDirParams
    partitionCols := fun db _ => if db = "LSST" then ["ra", "decl", "objectId"] else []
    partitioningId := fun _ => 5 }

/-- Query context with default database `LSST` over `cssDefaultDb`. -/
def ctxDefaultDb : QueryContext := { defaultDb := "LSST", css := cssDefaultDb }

/-- C8: resolving `Object` with an empty `db` argument is NOT equivalent to
resolving with `db` equal to the context's default database: the source
queries `getPartTableParams(db, table)` with the original `db` argument
(not the substituted `db_`), so with empty `db` the partition-column query
goes to the store under the empty database name and the resolution fails
with `InvalidTable`, while with `db = "LSST"` it succeeds. -/
theorem emptyDbPartitionColsDivergence :
    (getP 5 ctxDefaultDb [] "" "Object").1 =
      .error ("Director table LSST.Object metadata does not contain non-empty" ++
        " and distinct director, longitude and latitude column names.") ∧
    (getP 5 ctxDefaultDb [] "LSST" "Object").1 =
      .ok (some (.dirT { db := "LSST", name := "Object", pk := "objectId"
                         lon := "ra", lat := "decl", partitioningId := 5 })) := by
  refine ⟨rfl, rfl⟩

/-- C9: on a sorted pool, the const lookup `get(db, table)` succeeds exactly
when the pool holds a descriptor with that `(db, name)` key — the probe's
variant kind plays no role in the comparison — and what it returns is that
pooled descriptor itself. -/
theorem poolLookupByKey (pool : Pool) (db table : String) (hs : PoolSorted pool) :
    (∀ t, getConst pool db table = some t → t ∈ pool ∧ t.key = (db, table)) ∧
    ((∃ t ∈ pool, t.key = (db, table)) → ∃ t, getConst pool db table = some t) := by
  constructor
  · intro t h
    exact getConst_mem_key h
  · rintro ⟨t, ht, hk⟩
    cases hcase : getConst pool db table with
    | some u => exact ⟨u, rfl⟩
    | none => exact absurd hk (getConst_none hs hcase t ht)

/-- Witness for `poolLookupByKey` on a concrete sorted pool whose middle
element is a match descriptor (the looked-up kind differs from the probe's
arbitrary `DIRECTOR` kind). -/
theorem poolLookupByKey_witness :
    (∀ t, getConst [TableInfo.dirT dirObject, TableInfo.matchT mtRefMatch,
        TableInfo.dirT dirSource] "LSST" "RefMatch" = some t →
      t ∈ [TableInfo.dirT dirObject, TableInfo.matchT mtRefMatch,
        TableInfo.dirT dirSource] ∧ t.key = ("LSST", "RefMatch")) ∧
    ((∃ t ∈ [TableInfo.dirT dirObject, TableInfo.matchT mtRefMatch,
        TableInfo.dirT dirSource], t.key = ("LSST", "RefMatch")) →
      ∃ t, getConst [TableInfo.dirT dirObject, TableInfo.matchT mtRefMatch,
        TableInfo.dirT dirSource] "LSST" "RefMatch" = some t) :=
  poolLookupByKey [TableInfo.dirT dirObject, TableInfo.matchT mtRefMatch,
    TableInfo.dirT dirSource] "LSST" "RefMatch"
    (by unfold PoolSorted; decide)
